import Mathlib

/-!
Shallow embedding of the fastly-promise client (src/lib/fastlyPromise.js) and
verification of its specification.  JavaScript objects used as string maps are
modelled as functions from keys to optional values; promise chains are modelled
as explicit sequencing over a result/trace pair; the HTTP transport is an
abstract oracle from assembled transport options to a result.
-/

/-- Models the JS substring call s.substring(0, n).  All strings involved are
ASCII, where JS UTF-16 indexing and Lean codepoint indexing agree. -/
def jsSubstringTo (s : String) (n : Nat) : String :=
  ⟨s.data.take n⟩

/-- Boolean test that s begins with p, as the regex test on line 64 of the
source and the substring comparison on line 78 both compute it. -/
def jsStartsWith (s p : String) : Bool :=
  jsSubstringTo s p.length == p

/-- Models a JS object used as a map from header names (or form field names)
to string values.  A key mapped to none is absent. -/
def JsMap : Type := String → Option String

/-- Models obj[k] = v assignment. -/
def JsMap.set (m : JsMap) (k v : String) : JsMap :=
  fun key => if key = k then some v else m key

/-- Models ramda.merge(a, b): a fresh object with the keys of both, the value
from b winning on collision. -/
def JsMap.merge (a b : JsMap) : JsMap :=
  fun key =>
    match b key with
    | some v => some v
    | none => a key

/-- Models the delete obj[k] statement. -/
def JsMap.erase (m : JsMap) (k : String) : JsMap :=
  fun key => if key = k then none else m key

/-- The empty JS object. -/
def JsMap.empty : JsMap := fun _ => none

/-- Client state set up by the FastlyPromise constructor (lines 25-37).  The
apiKey is an Option because calling the constructor with new and no argument
stores undefined. -/
structure Client where
  apiKey : Option String
  endpoint : String
  deriving DecidableEq, Repr

/-- Errors a promise in this client can reject with.  thrown models a plain
new Error raised by the client code itself; http models a transport rejection
carrying an HTTP status code (request-promise StatusCodeError); typeError
models a runtime TypeError such as reading a property of undefined. -/
inductive JsError where
  | thrown (message : String)
  | http (statusCode : Nat) (message : String)
  | typeError (message : String)
  deriving DecidableEq, Repr

/-- Models reading errorResponse.statusCode (line 401): only transport errors
carry one; on any other error the read yields undefined. -/
def JsError.statusCode : JsError → Option Nat
  | .http code _ => some code
  | _ => none

/-- The request-promise options object assembled on lines 83-94.  Each field is
an Option so that the shallow ramda.merge with caller-supplied overrides can be
modelled per top-level key. -/
structure TransportOptions where
  method : Option String := none
  uri : Option String := none
  headers : Option JsMap := none
  resolveWithFullResponse : Option Bool := none
  form : Option JsMap := none

/-- Models ramda.merge(a, b) on the two transport-options objects (line 94): a
shallow, top-level-key merge where a key of b wins wholesale. -/
def TransportOptions.merge (a b : TransportOptions) : TransportOptions where
  method := match b.method with | some v => some v | none => a.method
  uri := match b.uri with | some v => some v | none => a.uri
  headers := match b.headers with | some v => some v | none => a.headers
  resolveWithFullResponse :=
    match b.resolveWithFullResponse with | some v => some v | none => a.resolveWithFullResponse
  form := match b.form with | some v => some v | none => a.form

/-- The options parameter of request (lines 47-54). -/
structure RequestOptions where
  softPurge : Option Bool := none
  headers : Option JsMap := none
  form : Option JsMap := none
  requestPromiseOptions : Option TransportOptions := none

/-- The fixed base endpoint set by the constructor (line 35). -/
def fastlyEndpoint : String := "https://api.fastly.com"

/-- Models lines 63-66: a url not matching the regex for http:// or https:// is
concatenated onto the endpoint. -/
def resolveUrl (endpoint url : String) : String :=
  if jsStartsWith url "http://" || jsStartsWith url "https://" then url
  else endpoint ++ url

/-- Models the comparison on line 78: url.substring(0, endpoint.length) equals
the endpoint, i.e. the resolved url begins with the endpoint. -/
def urlOnEndpoint (endpoint url : String) : Bool :=
  jsSubstringTo url endpoint.length == endpoint

/-- Models lines 73-74: the initial header object with the Fastly-Key entry,
plus Fastly-Soft-Purge when softPurge is set.  The numeric value 1 is written
as the string it is serialised to. -/
def computedHeaders (c : Client) (softPurge : Bool) : JsMap :=
  let headers : JsMap := fun k => if k = "Fastly-Key" then c.apiKey else none
  if softPurge then headers.set "Fastly-Soft-Purge" "1" else headers

/-- Models line 75: the computed headers overlaid with options.headers via
ramda.merge, after the softPurge default of line 70. -/
def mergedHeaders (c : Client) (options : RequestOptions) : JsMap :=
  let headers := computedHeaders c (options.softPurge.getD false)
  match options.headers with
  | some callerHeaders => headers.merge callerHeaders
  | none => headers

/-- Models lines 77-80: the Fastly-Key header is deleted when the resolved url
is not on the fastly endpoint. -/
def assembledHeaders (c : Client) (url : String) (options : RequestOptions) : JsMap :=
  if urlOnEndpoint c.endpoint url then mergedHeaders c options
  else (mergedHeaders c options).erase "Fastly-Key"

/-- Models lines 63-94 of request: url resolution, header assembly, the base
request-promise options, the optional form payload, and the final shallow
merge with options.requestPromiseOptions. -/
def buildTransport (c : Client) (method url : String) (options : RequestOptions) :
    TransportOptions :=
  let url := resolveUrl c.endpoint url
  let base : TransportOptions :=
    { method := some method
      uri := some url
      headers := some (assembledHeaders c url options)
      resolveWithFullResponse := some true }
  let withForm :=
    match options.form with
    | some f => { base with form := some f }
    | none => base
  match options.requestPromiseOptions with
  | some rpo => withForm.merge rpo
  | none => withForm

/-- JSON values delivered by the API, together with the JS values undefined and
null, which arise from property accesses and from Array.prototype.find. -/
inductive Json where
  | undefined
  | null
  | bool (b : Bool)
  | num (n : Int)
  | str (s : String)
  | arr (elements : List Json)
  | obj (fields : List (String × Json))

/-- JS truthiness of a value. -/
def Json.truthy : Json → Bool
  | .undefined => false
  | .null => false
  | .bool b => b
  | .num n => !(n == 0)
  | .str s => !(s == "")
  | .arr _ => true
  | .obj _ => true

mutual

/-- JS string coercion as performed by the + operator when a value is
concatenated into a url.  Integral numbers print as in JS. -/
def jsToString : Json → String
  | .undefined => "undefined"
  | .null => "null"
  | .bool b => if b then "true" else "false"
  | .num n => toString n
  | .str s => s
  | .arr xs => jsToStringElems xs
  | .obj _ => "[object Object]"

/-- Array.prototype.toString: elements joined by commas, with null and
undefined elements rendered empty. -/
def jsToStringElems : List Json → String
  | [] => ""
  | [.undefined] => ""
  | [.null] => ""
  | [x] => jsToString x
  | .undefined :: rest => "," ++ jsToStringElems rest
  | .null :: rest => "," ++ jsToStringElems rest
  | x :: rest => jsToString x ++ "," ++ jsToStringElems rest

end

/-- Models a JS property access value[k].  Reading a property of undefined or
null raises a TypeError; a missing property of an object reads as undefined;
properties of other primitives that the client reads are absent, hence
undefined. -/
def Json.getProp : Json → String → Except JsError Json
  | .undefined, k => .error (.typeError ("Cannot read property " ++ k ++ " of undefined"))
  | .null, k => .error (.typeError ("Cannot read property " ++ k ++ " of null"))
  | .obj fields, k =>
      .ok (match fields.find? (fun f => f.1 == k) with
           | some f => f.2
           | none => .undefined)
  | _, _ => .ok .undefined

/-- True for values on which a property access does not raise, i.e. everything
except undefined and null. -/
def Json.hasProps : Json → Bool
  | .undefined => false
  | .null => false
  | _ => true

/-- Models Array.prototype.find with a callback that may itself raise: returns
the first element whose callback result is truthy, undefined when none is, and
propagates a callback error. -/
def jsFindE (callback : Json → Except JsError Json) : List Json → Except JsError Json
  | [] => .ok .undefined
  | x :: rest =>
    match callback x with
    | .error e => .error e
    | .ok v => if v.truthy then .ok x else jsFindE callback rest

/-- Truthiness of a possibly-undefined JS string: undefined and the empty
string are falsy. -/
def jsTruthyString : Option String → Bool
  | none => false
  | some s => !(s == "")

/-- Models the FastlyPromise constructor (lines 25-37).  calledWithNew records
whether the caller used the new operator: the instanceof guard skips the whole
validation block in that case.  apiKey is none when the argument is omitted. -/
def FastlyPromise.construct (calledWithNew : Bool) (apiKey : Option String) :
    Except JsError Client :=
  if calledWithNew then
    .ok { apiKey := apiKey, endpoint := fastlyEndpoint }
  else if jsTruthyString apiKey then
    .ok { apiKey := apiKey, endpoint := fastlyEndpoint }
  else
    .error (.thrown "Missing API key parameter.")

/-- The full response resolved by request-promise with resolveWithFullResponse:
the content-type response header and the raw body string. -/
structure HttpResponse where
  contentType : Option String
  body : String

/-- Abstract HTTP environment: call is the transport (request-promise) as an
oracle from assembled transport options to a resolution or rejection, and
parse is JSON.parse as an abstract function on body strings. -/
structure Http where
  call : TransportOptions → Except JsError HttpResponse
  parse : String → Json

/-- Models the response handler on lines 98-100: the body is JSON-parsed when
the content-type header is exactly application/json, and returned as the raw
string otherwise. -/
def decodeBody (parse : String → Json) (contentType : Option String) (body : String) : Json :=
  if contentType == some "application/json" then parse body else .str body

/-- One transport round trip followed by the decode step of request. -/
def Http.fetch (http : Http) (t : TransportOptions) : Except JsError Json :=
  match http.call t with
  | .error e => .error e
  | .ok response => .ok (decodeBody http.parse response.contentType response.body)

/-- Result of a promise chain: the settled value or rejection reason, paired
with the trace of transport requests issued, in issue order. -/
abbrev Chained (α : Type) : Type := Except JsError α × List TransportOptions

/-- Sequencing of promise chains: a later stage runs only when the earlier
stage resolved, and its requests are issued strictly after the earlier ones. -/
def Chained.bind {α β : Type} (p : Chained α) (f : α → Chained β) : Chained β :=
  match p with
  | (.error e, trace) => (.error e, trace)
  | (.ok a, trace) => ((f a).1, trace ++ (f a).2)

/-- Models request (lines 56-102): parameter validation, transport-options
assembly via buildTransport, one transport call and the decode step.  The
second component records the transport request issued. -/
def Client.request (c : Client) (http : Http) (method url : String)
    (options : RequestOptions) : Chained Json :=
  if method == "" || url == "" then
    (.error (.thrown "Missing required request parameters."), [])
  else
    let t := buildTransport c method url options
    (http.fetch t, [t])

/-- Models getConfigVersions (lines 158-162). -/
def Client.getConfigVersions (c : Client) (http : Http) (serviceId : String) : Chained Json :=
  c.request http "GET" (c.endpoint ++ "/service/" ++ serviceId ++ "/version") {}

/-- Models getActiveConfigVersion (lines 183-194): fetch the version list, then
find the first entry whose active property is truthy. -/
def Client.getActiveConfigVersion (c : Client) (http : Http) (serviceId : String) :
    Chained Json :=
  Chained.bind (c.getConfigVersions http serviceId) (fun configVersions =>
    match configVersions with
    | .arr versions =>
        (jsFindE (fun configVersion => configVersion.getProp "active") versions, [])
    | _ => (.error (.typeError "configVersions.find is not a function"), []))

/-- Models getAllVcl (lines 309-313). -/
def Client.getAllVcl (c : Client) (http : Http) (serviceId : String)
    (configVersionNumber : Json) : Chained Json :=
  c.request http "GET"
    (c.endpoint ++ "/service/" ++ serviceId ++ "/version/" ++ jsToString configVersionNumber
      ++ "/vcl") {}

/-- Models getVcl (lines 323-327). -/
def Client.getVcl (c : Client) (http : Http) (serviceId : String)
    (configVersionNumber : Json) (vclName : String) : Chained Json :=
  c.request http "GET"
    (c.endpoint ++ "/service/" ++ serviceId ++ "/version/" ++ jsToString configVersionNumber
      ++ "/vcl/" ++ vclName) {}

/-- Models the default-resolution line shared verbatim by cloneConfigVersion,
getMainVcl, setMainVcl and deleteVcl (e.g. line 280): a truthy explicit version
number resolves immediately, otherwise the active config version is fetched
and its number property is read. -/
def Client.configVersionNumberPromise (c : Client) (http : Http) (serviceId : String)
    (configVersionNumber : Json) : Chained Json :=
  if configVersionNumber.truthy then (.ok configVersionNumber, [])
  else
    Chained.bind (c.getActiveConfigVersion http serviceId) (fun version =>
      (version.getProp "number", []))

/-- Models cloneConfigVersion (lines 276-287). -/
def Client.cloneConfigVersion (c : Client) (http : Http) (serviceId : String)
    (configVersionNumber : Json) : Chained Json :=
  Chained.bind (c.configVersionNumberPromise http serviceId configVersionNumber) (fun n =>
    c.request http "PUT"
      (c.endpoint ++ "/service/" ++ serviceId ++ "/version/" ++ jsToString n ++ "/clone") {})

/-- Models getMainVcl (lines 336-354). -/
def Client.getMainVcl (c : Client) (http : Http) (serviceId : String)
    (configVersionNumber : Json) : Chained Json :=
  Chained.bind (c.configVersionNumberPromise http serviceId configVersionNumber) (fun n =>
    Chained.bind (c.getAllVcl http serviceId n) (fun vclList =>
      match vclList with
      | .arr vcls => (jsFindE (fun vcl => vcl.getProp "main") vcls, [])
      | _ => (.error (.typeError "vclList.find is not a function"), [])))

/-- Models setMainVcl (lines 364-375). -/
def Client.setMainVcl (c : Client) (http : Http) (serviceId : String) (vclName : String)
    (configVersionNumber : Json) : Chained Json :=
  Chained.bind (c.configVersionNumberPromise http serviceId configVersionNumber) (fun n =>
    c.request http "PUT"
      (c.endpoint ++ "/service/" ++ serviceId ++ "/version/" ++ jsToString n ++ "/vcl/"
        ++ vclName ++ "/main") {})

/-- Models deleteVcl (lines 481-492). -/
def Client.deleteVcl (c : Client) (http : Http) (serviceId : String) (vclName : String)
    (configVersionNumber : Json) : Chained Json :=
  Chained.bind (c.configVersionNumberPromise http serviceId configVersionNumber) (fun n =>
    c.request http "DELETE"
      (c.endpoint ++ "/service/" ++ serviceId ++ "/version/" ++ jsToString n ++ "/vcl/"
        ++ vclName) {})

/-- The message of the error thrown by uploadNewVcl on line 409. -/
def nameConflictMessage (vclName : String) : String :=
  "Error: " ++ vclName ++ " VCL file already exists."

/-- The form payload of the upload POST on lines 415-418. -/
def uploadForm (vclName vclContent : String) : JsMap :=
  fun k =>
    if k = "name" then some vclName
    else if k = "content" then some vclContent
    else none

/-- Models uploadNewVcl (lines 387-436): look the name up with getVcl; a
resolved lookup makes the name invalid, a rejected lookup makes it valid
exactly when the rejection carries statusCode 404; an invalid name throws the
conflict error, a valid one issues the upload POST; finally setMainVcl is
chained when setVclToMain is truthy. -/
def Client.uploadNewVcl (c : Client) (http : Http) (serviceId : String)
    (configVersionNumber : Json) (vclName vclContent : String)
    (setVclToMain : Option Bool) : Chained Json :=
  let setMain := setVclToMain.getD false
  let validNamePromise : Chained Bool :=
    match c.getVcl http serviceId configVersionNumber vclName with
    | (.ok _, trace) => (.ok false, trace)
    | (.error errorResponse, trace) =>
        (.ok (errorResponse.statusCode == some 404), trace)
  Chained.bind
    (Chained.bind validNamePromise (fun validName =>
      if !validName then
        (.error (.thrown (nameConflictMessage vclName)), [])
      else
        c.request http "POST"
          (c.endpoint ++ "/service/" ++ serviceId ++ "/version/"
            ++ jsToString configVersionNumber ++ "/vcl")
          { form := some (uploadForm vclName vclContent) }))
    (fun vclResponse =>
      if setMain then c.setMainVcl http serviceId vclName configVersionNumber
      else (.ok vclResponse, []))

/-! Statement-side observers and request abbreviations. -/

/-- The transport request issued by getConfigVersions. -/
def versionsRequest (c : Client) (serviceId : String) : TransportOptions :=
  buildTransport c "GET" (c.endpoint ++ "/service/" ++ serviceId ++ "/version") {}

/-- The transport request issued by the clone step of cloneConfigVersion for
version number n. -/
def cloneRequest (c : Client) (serviceId : String) (n : Json) : TransportOptions :=
  buildTransport c "PUT"
    (c.endpoint ++ "/service/" ++ serviceId ++ "/version/" ++ jsToString n ++ "/clone") {}

/-- The transport request issued by the getVcl lookup of uploadNewVcl. -/
def vclLookupRequest (c : Client) (serviceId : String) (n : Json) (vclName : String) :
    TransportOptions :=
  buildTransport c "GET"
    (c.endpoint ++ "/service/" ++ serviceId ++ "/version/" ++ jsToString n
      ++ "/vcl/" ++ vclName) {}

/-- The upload POST issued by uploadNewVcl, carrying the name and content form
payload. -/
def vclUploadRequest (c : Client) (serviceId : String) (n : Json)
    (vclName vclContent : String) : TransportOptions :=
  buildTransport c "POST"
    (c.endpoint ++ "/service/" ++ serviceId ++ "/version/" ++ jsToString n ++ "/vcl")
    { form := some (uploadForm vclName vclContent) }

/-- The value the property k of an element reads as when reading cannot raise:
the field value, or undefined when absent. -/
def Json.getPropD (x : Json) (k : String) : Json :=
  match x.getProp k with
  | .ok w => w
  | .error _ => .undefined

/-- Truthiness of the property k of an element, the test applied by the find
callbacks of the client; false when reading the property would raise. -/
def propTruthy (k : String) (v : Json) : Bool :=
  match v.getProp k with
  | .ok value => value.truthy
  | .error _ => false

/-- The value Array.prototype.find settles with: the found element or
undefined. -/
def foundOrUndefined : Option Json → Json
  | some v => v
  | none => .undefined

/-! Concrete fixtures used by witnesses. -/

/-- A client as the constructor builds it. -/
def sampleClient : Client :=
  { apiKey := some "secret-key", endpoint := fastlyEndpoint }

/-- An environment whose every call is rejected with status 503. -/
def stubHttp : Http where
  call := fun _ => .error (.http 503 "stub")
  parse := fun _ => .null

/-- An environment whose every call is rejected with status 500. -/
def failHttp : Http where
  call := fun _ => .error (.http 500 "boom")
  parse := fun _ => .null

/-- An environment serving a two-element version list for service svc1 and
accepting the clone PUT of version 5. -/
def cloneHttp : Http where
  call := fun t =>
    if t.uri == some "https://api.fastly.com/service/svc1/version" then
      .ok { contentType := some "application/json", body := "versions" }
    else if t.uri == some "https://api.fastly.com/service/svc1/version/5/clone" then
      .ok { contentType := some "application/json", body := "cloned" }
    else
      .error (.http 500 "unexpected")
  parse := fun body =>
    if body == "versions" then
      .arr [.obj [("number", .num 4), ("active", .bool false)],
            .obj [("number", .num 5), ("active", .bool true)]]
    else if body == "cloned" then .obj [("number", .num 6)]
    else .null

/-- The version list cloneHttp serves. -/
def cloneHttpVersions : List Json :=
  [.obj [("number", .num 4), ("active", .bool false)],
   .obj [("number", .num 5), ("active", .bool true)]]

/-- An environment rejecting the getVcl lookup for newvcl with 404 and
accepting the upload POST. -/
def uploadHttp : Http where
  call := fun t =>
    if t.uri == some "https://api.fastly.com/service/svc1/version/3/vcl/newvcl" then
      .error (.http 404 "not found")
    else if t.uri == some "https://api.fastly.com/service/svc1/version/3/vcl" then
      .ok { contentType := some "application/json", body := "created" }
    else
      .error (.http 500 "unexpected")
  parse := fun body =>
    if body == "created" then .obj [("name", .str "newvcl")] else .null

/-- An environment resolving every call with a plain-text body. -/
def plainTextHttp : Http where
  call := fun _ => .ok { contentType := some "text/plain", body := "backend definitions" }
  parse := fun _ => .null

/-- An environment resolving every call with an application/json body carrying
a charset parameter. -/
def charsetHttp : Http where
  call := fun _ =>
    .ok { contentType := some "application/json; charset=utf-8", body := "charset body" }
  parse := fun _ => .num 7

/-- An environment resolving every call with an exact application/json
content type. -/
def jsonHttp : Http where
  call := fun _ => .ok { contentType := some "application/json", body := "json body" }
  parse := fun _ => .num 7

/-- Request options whose transport override replaces the header map with an
empty object. -/
def wholesaleOptions : RequestOptions :=
  { headers := some (JsMap.empty.set "X-Trace" "1")
    requestPromiseOptions := some { headers := some JsMap.empty } }

/-- Request options whose transport override re-adds the Fastly-Key header. -/
def evilRpoOptions : RequestOptions :=
  { requestPromiseOptions :=
      some { headers := some (JsMap.empty.set "Fastly-Key" "secret-key") } }

/-- Request options whose caller headers override the Fastly-Key value. -/
def overrideKeyOptions : RequestOptions :=
  { headers := some (JsMap.empty.set "Fastly-Key" "other-value") }

/-- Request options exercising both caller headers and a transport override. -/
def precedenceOptions : RequestOptions :=
  { headers := some (JsMap.empty.set "Fastly-Key" "caller-key")
    requestPromiseOptions :=
      some { method := some "PATCH"
             uri := some "https://example.com/elsewhere"
             form := some (JsMap.empty.set "k" "v") } }

/-! Shared helper lemmas. -/

/-- A string with a non-empty left part of an append is non-empty. -/
theorem append_left_ne_empty (a b : String) (h : (a == "") = false) :
    ((a ++ b) == "") = false := by
  obtain ⟨la⟩ := a
  obtain ⟨lb⟩ := b
  cases la with
  | nil => exact absurd h (by decide)
  | cons x xs => rfl

/-- Unfolding of request when both parameters are non-empty: one transport
request is issued, the assembled options recorded in the trace. -/
theorem request_eq_of_ne_empty (c : Client) (http : Http) (method url : String)
    (options : RequestOptions)
    (hm : (method == "") = false) (hu : (url == "") = false) :
    c.request http method url options
      = (http.fetch (buildTransport c method url options),
         [buildTransport c method url options]) := by
  simp [Client.request, hm, hu]

/-- Reading a property of a value other than undefined and null resolves. -/
theorem getProp_eq_ok (x : Json) (k : String) (h : x.hasProps = true) :
    x.getProp k = .ok (x.getPropD k) := by
  cases x with
  | undefined => exact absurd h (by decide)
  | null => exact absurd h (by decide)
  | bool b => rfl
  | num n => rfl
  | str s => rfl
  | arr xs => rfl
  | obj fields => rfl

/-- Over property-bearing elements, the find of the client settles with the
first element whose property is truthy, or undefined. -/
theorem jsFindE_eq_find? (k : String) (l : List Json)
    (h : ∀ x ∈ l, x.hasProps = true) :
    jsFindE (fun v => v.getProp k) l = .ok (foundOrUndefined (l.find? (propTruthy k))) := by
  induction l with
  | nil => rfl
  | cons x rest ih =>
      have hx : x.hasProps = true := h x (List.mem_cons_self x rest)
      have hrest : ∀ y ∈ rest, y.hasProps = true := fun y hy => h y (List.mem_cons_of_mem x hy)
      have hget := getProp_eq_ok x k hx
      have hpt : propTruthy k x = (x.getPropD k).truthy := by
        simp [propTruthy, hget]
      rw [jsFindE, hget, List.find?]
      rw [hpt]
      cases htr : (x.getPropD k).truthy with
      | true => simp [htr, foundOrUndefined]
      | false => simp only [htr]; simpa using ih hrest

/-! Claim C2. -/

/-- C2 counterexample: invoking the constructor with the new operator and an
empty API key string does not fail; it returns a client holding the empty
key. -/
theorem construct_new_empty_key_counterexample :
    FastlyPromise.construct true (some "")
      = .ok { apiKey := some "", endpoint := fastlyEndpoint }
    ∧ (FastlyPromise.construct true (some "")).isOk = true := by
  exact ⟨rfl, rfl⟩

/-- C2 amended: the missing-key validation runs only when the constructor is
invoked without the new operator, in which case an omitted or empty key fails
with the missing-key error; invoked with new, construction succeeds for any
key; every successful construction holds the given apiKey and the fixed
endpoint, so in particular every non-empty key succeeds in both styles. -/
theorem construct_spec_amended (apiKey : Option String) :
    (jsTruthyString apiKey = false →
      FastlyPromise.construct false apiKey
        = .error (.thrown "Missing API key parameter."))
    ∧ (jsTruthyString apiKey = true →
      FastlyPromise.construct false apiKey
        = .ok { apiKey := apiKey, endpoint := fastlyEndpoint })
    ∧ FastlyPromise.construct true apiKey
        = .ok { apiKey := apiKey, endpoint := fastlyEndpoint } := by
  refine ⟨fun h => ?_, fun h => ?_, rfl⟩ <;> simp [FastlyPromise.construct, h]

/-- C2 witness: a concrete non-empty key constructs a client holding it. -/
theorem construct_spec_amended_witness :
    FastlyPromise.construct false (some "abc123")
      = .ok { apiKey := some "abc123", endpoint := fastlyEndpoint } :=
  (construct_spec_amended (some "abc123")).2.1 (by decide)

/-! Claim C4. -/

/-- C4: for every non-empty url passed to request, a url that does not start
with http:// or https:// resolves to the endpoint concatenated with the url,
and a url that does start with one of them resolves to itself; absent a
transport override, the assembled request carries the resolved url. -/
theorem resolveUrl_spec (c : Client) (method url : String) (options : RequestOptions)
    (_hurl : url ≠ "")
    (hrpo : options.requestPromiseOptions = none) :
    (jsStartsWith url "http://" = false → jsStartsWith url "https://" = false →
      resolveUrl c.endpoint url = c.endpoint ++ url)
    ∧ (jsStartsWith url "http://" = true ∨ jsStartsWith url "https://" = true →
      resolveUrl c.endpoint url = url)
    ∧ (buildTransport c method url options).uri = some (resolveUrl c.endpoint url) := by
  refine ⟨fun h1 h2 => ?_, fun h => ?_, ?_⟩
  · simp [resolveUrl, h1, h2]
  · rcases h with h | h <;> simp [resolveUrl, h]
  · cases hform : options.form <;> simp [buildTransport, hrpo, hform]

/-- C4 witness: a relative path resolves to the endpoint plus the path and an
absolute url stays unchanged. -/
theorem resolveUrl_spec_witness :
    resolveUrl fastlyEndpoint "/service/abc/version"
        = fastlyEndpoint ++ "/service/abc/version"
    ∧ resolveUrl fastlyEndpoint "https://example.com/x" = "https://example.com/x" := by
  constructor
  · exact (resolveUrl_spec sampleClient "GET" "/service/abc/version" {} (by decide) rfl).1
      (by decide) (by decide)
  · exact (resolveUrl_spec sampleClient "GET" "https://example.com/x" {} (by decide) rfl).2.1
      (Or.inr (by decide))

/-! Claim C9. -/

/-- C9: when options.requestPromiseOptions carries a headers field, the header
map sent is exactly that map: the top-level merge is shallow, so the whole
computed header map, Fastly-Key and Fastly-Soft-Purge included, is replaced
wholesale. -/
theorem rpo_headers_wholesale (c : Client) (method url : String)
    (options : RequestOptions) (rpo : TransportOptions) (h : JsMap)
    (hrpo : options.requestPromiseOptions = some rpo)
    (hh : rpo.headers = some h) :
    (buildTransport c method url options).headers = some h := by
  cases hform : options.form <;>
    simp [buildTransport, hrpo, hform, TransportOptions.merge, hh]

/-- C9 witness: a transport override carrying an empty header map replaces the
computed headers wholesale, so not even Fastly-Key is sent. -/
theorem rpo_headers_wholesale_witness :
    (buildTransport sampleClient "GET" "/service/s" wholesaleOptions).headers = some JsMap.empty
    ∧ JsMap.empty "Fastly-Key" = none := by
  exact ⟨rpo_headers_wholesale sampleClient "GET" "/service/s" wholesaleOptions
    { headers := some JsMap.empty } JsMap.empty rfl rfl, rfl⟩

/-! Claim C5. -/

/-- C5: in the merged header map a caller-supplied header wins over the
identically-named computed header, and every top-level field carried by
options.requestPromiseOptions, method, uri, headers and form included, is
applied last and overrides the corresponding computed transport field. -/
theorem override_precedence (c : Client) (method url : String) (options : RequestOptions)
    (callerHeaders : JsMap) (k v : String) (rpo : TransportOptions)
    (hch : options.headers = some callerHeaders)
    (hk : callerHeaders k = some v)
    (hrpo : options.requestPromiseOptions = some rpo) :
    mergedHeaders c options k = some v
    ∧ (∀ m2, rpo.method = some m2 → (buildTransport c method url options).method = some m2)
    ∧ (∀ u2, rpo.uri = some u2 → (buildTransport c method url options).uri = some u2)
    ∧ (∀ h2, rpo.headers = some h2 → (buildTransport c method url options).headers = some h2)
    ∧ (∀ f2, rpo.form = some f2 → (buildTransport c method url options).form = some f2) := by
  refine ⟨?_, fun m2 hm2 => ?_, fun u2 hu2 => ?_, fun h2 hh2 => ?_, fun f2 hf2 => ?_⟩
  · simp [mergedHeaders, hch, JsMap.merge, hk]
  all_goals cases hform : options.form <;>
    simp [buildTransport, TransportOptions.merge, *]

/-- C5 witness: concrete caller headers override the computed Fastly-Key value
and a concrete transport override wins on method, uri and form. -/
theorem override_precedence_witness :
    mergedHeaders sampleClient precedenceOptions "Fastly-Key" = some "caller-key"
    ∧ (buildTransport sampleClient "GET" "/service/s" precedenceOptions).method = some "PATCH"
    ∧ (buildTransport sampleClient "GET" "/service/s" precedenceOptions).uri
        = some "https://example.com/elsewhere"
    ∧ (buildTransport sampleClient "GET" "/service/s" precedenceOptions).form
        = some (JsMap.empty.set "k" "v") := by
  have h := override_precedence sampleClient "GET" "/service/s" precedenceOptions
    (JsMap.empty.set "Fastly-Key" "caller-key") "Fastly-Key" "caller-key"
    { method := some "PATCH"
      uri := some "https://example.com/elsewhere"
      form := some (JsMap.empty.set "k" "v") } rfl rfl rfl
  exact ⟨h.1, h.2.1 "PATCH" rfl, h.2.2.1 "https://example.com/elsewhere" rfl,
    h.2.2.2.2 (JsMap.empty.set "k" "v") rfl⟩

/-! Claim C6. -/

/-- C6: for every response received by request, the settled value is the
JSON-parsed body when the content-type header equals application/json exactly,
and the raw body string unchanged for any other content-type value, a charset
parameter or text/plain included. -/
theorem response_decoding_spec (c : Client) (http : Http) (method url : String)
    (options : RequestOptions) (response : HttpResponse)
    (hm : (method == "") = false) (hu : (url == "") = false)
    (hcall : http.call (buildTransport c method url options) = .ok response) :
    (c.request http method url options).1
      = .ok (decodeBody http.parse response.contentType response.body)
    ∧ (response.contentType = some "application/json" →
      (c.request http method url options).1 = .ok (http.parse response.body))
    ∧ (response.contentType ≠ some "application/json" →
      (c.request http method url options).1 = .ok (.str response.body)) := by
  have hreq : (c.request http method url options).1
      = .ok (decodeBody http.parse response.contentType response.body) := by
    simp [Client.request, hm, hu, Http.fetch, hcall]
  refine ⟨hreq, fun h => ?_, fun h => ?_⟩
  · rw [hreq]
    simp [decodeBody, h]
  · rw [hreq]
    have hne : (response.contentType == some "application/json") = false := by
      simpa using h
    simp [decodeBody, hne]

/-- C6 witness: an exact application/json response is parsed, while a response
whose content type carries a charset parameter stays the raw body string. -/
theorem response_decoding_spec_witness :
    (sampleClient.request jsonHttp "GET" "/x" {}).1 = .ok (.num 7)
    ∧ (sampleClient.request charsetHttp "GET" "/x" {}).1 = .ok (.str "charset body") := by
  constructor
  · exact (response_decoding_spec sampleClient jsonHttp "GET" "/x" {}
      { contentType := some "application/json", body := "json body" }
      (by decide) (by decide) rfl).2.1 rfl
  · exact (response_decoding_spec sampleClient charsetHttp "GET" "/x" {}
      { contentType := some "application/json; charset=utf-8", body := "charset body" }
      (by decide) (by decide) rfl).2.2 (by decide)

/-! Claim C3. -/

/-- C3 counterexample: a transport-options headers override re-adds the
Fastly-Key header on a url that does not start with the endpoint, so the key
is sent to a third-party host; and caller headers make the Fastly-Key header
on an endpoint url carry a value other than the client apiKey. -/
theorem fastly_key_counterexample :
    ((buildTransport sampleClient "GET" "https://evil.example/x" evilRpoOptions).headers.map
      (fun h => h "Fastly-Key")) = some (some "secret-key")
    ∧ urlOnEndpoint fastlyEndpoint (resolveUrl fastlyEndpoint "https://evil.example/x") = false
    ∧ ((buildTransport sampleClient "GET" "/service/s" overrideKeyOptions).headers.map
      (fun h => h "Fastly-Key")) = some (some "other-value")
    ∧ urlOnEndpoint fastlyEndpoint (resolveUrl fastlyEndpoint "/service/s") = true
    ∧ sampleClient.apiKey ≠ some "other-value" := by
  refine ⟨rfl, by decide, rfl, by decide, by decide⟩

/-- C3 amended: over calls whose transport override carries no headers field
and whose caller headers do not set Fastly-Key themselves, the sent header map
carries Fastly-Key with the client apiKey exactly when the resolved absolute
url starts with the fixed endpoint, and lacks the header otherwise. -/
theorem fastly_key_spec_amended (c : Client) (key method url : String)
    (options : RequestOptions)
    (hkey : c.apiKey = some key)
    (hrpo : ∀ rpo, options.requestPromiseOptions = some rpo → rpo.headers = none)
    (hch : ∀ ch, options.headers = some ch → ch "Fastly-Key" = none) :
    (buildTransport c method url options).headers.map (fun h => h "Fastly-Key")
      = some (if urlOnEndpoint c.endpoint (resolveUrl c.endpoint url)
              then some key else none) := by
  have hasm : (buildTransport c method url options).headers
      = some (assembledHeaders c (resolveUrl c.endpoint url) options) := by
    cases hr : options.requestPromiseOptions with
    | none => cases hf : options.form <;> simp [buildTransport, hr, hf]
    | some rpo =>
        have hrh := hrpo rpo hr
        cases hf : options.form <;>
          simp [buildTransport, hr, hf, TransportOptions.merge, hrh]
  have hmerged : mergedHeaders c options "Fastly-Key" = some key := by
    have hcomp : ∀ soft, computedHeaders c soft "Fastly-Key" = some key := by
      intro soft
      cases soft <;> simp [computedHeaders, JsMap.set, hkey]
    cases hc : options.headers with
    | none => simp [mergedHeaders, hc, hcomp]
    | some ch =>
        have hck := hch ch hc
        simp [mergedHeaders, hc, JsMap.merge, hck, hcomp]
  rw [hasm]
  cases hu : urlOnEndpoint c.endpoint (resolveUrl c.endpoint url) <;>
    simp [assembledHeaders, hu, JsMap.erase, hmerged]

/-- C3 witness: with no overrides, an endpoint-relative call carries the key
and an absolute third-party call does not. -/
theorem fastly_key_spec_amended_witness :
    (buildTransport sampleClient "GET" "/service/s" {}).headers.map
        (fun h => h "Fastly-Key") = some (some "secret-key")
    ∧ (buildTransport sampleClient "PURGE" "https://cdn.example.com/img" {}).headers.map
        (fun h => h "Fastly-Key") = some none := by
  constructor
  · exact (fastly_key_spec_amended sampleClient "secret-key" "GET" "/service/s" {}
      rfl (by simp) (by simp)).trans (by decide)
  · exact (fastly_key_spec_amended sampleClient "secret-key" "PURGE"
      "https://cdn.example.com/img" {} rfl (by simp) (by simp)).trans (by decide)

/-! Claim C7. -/

/-- C7: getActiveConfigVersion settles with the first element of the fetched
version list whose active flag is truthy, and settles with undefined, an
absent result rather than an error, when no element has one. -/
theorem getActiveConfigVersion_spec (c : Client) (http : Http) (serviceId : String)
    (l : List Json)
    (hend : c.endpoint = fastlyEndpoint)
    (hfetch : http.fetch (versionsRequest c serviceId) = .ok (.arr l))
    (hobjs : ∀ x ∈ l, x.hasProps = true) :
    (c.getActiveConfigVersion http serviceId).1
      = .ok (foundOrUndefined (l.find? (propTruthy "active")))
    ∧ (l.find? (propTruthy "active") = none →
      (c.getActiveConfigVersion http serviceId).1 = .ok Json.undefined) := by
  have hu : ((c.endpoint ++ "/service/" ++ serviceId ++ "/version") == "") = false := by
    rw [hend]
    exact append_left_ne_empty _ _ (append_left_ne_empty _ _
      (append_left_ne_empty _ _ (by decide)))
  have hgcv : c.getConfigVersions http serviceId
      = (http.fetch (versionsRequest c serviceId), [versionsRequest c serviceId]) :=
    request_eq_of_ne_empty c http "GET" _ {} (by decide) hu
  have hfind := jsFindE_eq_find? "active" l hobjs
  have hmain : (c.getActiveConfigVersion http serviceId).1
      = .ok (foundOrUndefined (l.find? (propTruthy "active"))) := by
    simp [Client.getActiveConfigVersion, hgcv, hfetch, Chained.bind, hfind]
  refine ⟨hmain, fun hnone => ?_⟩
  rw [hmain, hnone]
  rfl

/-- C7 witness: a list whose second element is the active one yields that
element. -/
theorem getActiveConfigVersion_spec_witness :
    (sampleClient.getActiveConfigVersion cloneHttp "svc1").1
      = .ok (.obj [("number", .num 5), ("active", .bool true)]) := by
  have h := getActiveConfigVersion_spec sampleClient cloneHttp "svc1" cloneHttpVersions
    rfl rfl (by decide)
  exact h.1

/-! More shared helpers for the chained operations. -/

/-- Unfolding of getConfigVersions over a fastly-endpoint client. -/
theorem getConfigVersions_eq (c : Client) (http : Http) (serviceId : String)
    (hend : c.endpoint = fastlyEndpoint) :
    c.getConfigVersions http serviceId
      = (http.fetch (versionsRequest c serviceId), [versionsRequest c serviceId]) := by
  have he : (c.endpoint == "") = false := by rw [hend]; decide
  exact request_eq_of_ne_empty c http "GET" _ {} (by decide)
    (append_left_ne_empty _ _ (append_left_ne_empty _ _ (append_left_ne_empty _ _ he)))

/-- getActiveConfigVersion when the version fetch is rejected: the rejection
propagates after the single GET. -/
theorem getActiveConfigVersion_error (c : Client) (http : Http) (serviceId : String)
    (e : JsError)
    (hend : c.endpoint = fastlyEndpoint)
    (hfetch : http.fetch (versionsRequest c serviceId) = .error e) :
    c.getActiveConfigVersion http serviceId = (.error e, [versionsRequest c serviceId]) := by
  simp [Client.getActiveConfigVersion, getConfigVersions_eq c http serviceId hend,
    hfetch, Chained.bind]

/-- getActiveConfigVersion over a fetched list of property-bearing elements:
it settles with the first truthy-active element or undefined, after the single
GET. -/
theorem getActiveConfigVersion_eq (c : Client) (http : Http) (serviceId : String)
    (l : List Json)
    (hend : c.endpoint = fastlyEndpoint)
    (hfetch : http.fetch (versionsRequest c serviceId) = .ok (.arr l))
    (hobjs : ∀ x ∈ l, x.hasProps = true) :
    c.getActiveConfigVersion http serviceId
      = (.ok (foundOrUndefined (l.find? (propTruthy "active"))),
         [versionsRequest c serviceId]) := by
  simp [Client.getActiveConfigVersion, getConfigVersions_eq c http serviceId hend,
    hfetch, Chained.bind, jsFindE_eq_find? "active" l hobjs]

/-! Claim C8. -/

/-- C8: cloneConfigVersion with no explicit version first issues the GET for
the version list of the service; a rejected GET propagates with no clone PUT
issued; a list without an active entry rejects with a TypeError and no clone
PUT; and with an active entry carrying a number, exactly two requests go out
in strict order, the GET and then the clone PUT for that number. -/
theorem cloneConfigVersion_spec (c : Client) (http : Http) (serviceId : String)
    (l : List Json) (v nv : Json)
    (hend : c.endpoint = fastlyEndpoint) :
    ((versionsRequest c serviceId).method = some "GET"
      ∧ (versionsRequest c serviceId).uri
          = some (c.endpoint ++ "/service/" ++ serviceId ++ "/version"))
    ∧ (∀ e, http.fetch (versionsRequest c serviceId) = .error e →
      c.cloneConfigVersion http serviceId .undefined
        = (.error e, [versionsRequest c serviceId]))
    ∧ (http.fetch (versionsRequest c serviceId) = .ok (.arr l) →
      (∀ x ∈ l, x.hasProps = true) →
      l.find? (propTruthy "active") = none →
      c.cloneConfigVersion http serviceId .undefined
        = (.error (.typeError "Cannot read property number of undefined"),
           [versionsRequest c serviceId]))
    ∧ (http.fetch (versionsRequest c serviceId) = .ok (.arr l) →
      (∀ x ∈ l, x.hasProps = true) →
      l.find? (propTruthy "active") = some v →
      v.getProp "number" = .ok nv →
      (cloneRequest c serviceId nv).method = some "PUT"
        ∧ (cloneRequest c serviceId nv).uri
            = some (c.endpoint ++ "/service/" ++ serviceId ++ "/version/"
                    ++ jsToString nv ++ "/clone")
        ∧ c.cloneConfigVersion http serviceId .undefined
            = (http.fetch (cloneRequest c serviceId nv),
               [versionsRequest c serviceId, cloneRequest c serviceId nv])) := by
  obtain ⟨ak, ep⟩ := c
  have hend2 : ep = fastlyEndpoint := hend
  subst hend2
  have he : ((fastlyEndpoint : String) == "") = false := by decide
  refine ⟨⟨rfl, rfl⟩, fun e hfe => ?_, fun hf hobjs hnone => ?_, fun hf hobjs hsome hnum => ?_⟩
  · simp [Client.cloneConfigVersion, Client.configVersionNumberPromise, Json.truthy,
      Chained.bind, getActiveConfigVersion_error _ http serviceId e rfl hfe]
  · simp [Client.cloneConfigVersion, Client.configVersionNumberPromise, Json.truthy,
      Chained.bind, getActiveConfigVersion_eq _ http serviceId l rfl hf hobjs, hnone,
      foundOrUndefined, Json.getProp]
  · refine ⟨rfl, rfl, ?_⟩
    have hclone : Client.request ⟨ak, fastlyEndpoint⟩ http "PUT"
        (Client.endpoint ⟨ak, fastlyEndpoint⟩ ++ "/service/" ++ serviceId ++ "/version/"
          ++ jsToString nv ++ "/clone") {}
        = (http.fetch (cloneRequest ⟨ak, fastlyEndpoint⟩ serviceId nv),
           [cloneRequest ⟨ak, fastlyEndpoint⟩ serviceId nv]) :=
      request_eq_of_ne_empty _ http "PUT" _ {} (by decide)
        (append_left_ne_empty _ _ (append_left_ne_empty _ _ (append_left_ne_empty _ _
          (append_left_ne_empty _ _ (append_left_ne_empty _ _ he)))))
    simp [Client.cloneConfigVersion, Client.configVersionNumberPromise, Json.truthy,
      Chained.bind, getActiveConfigVersion_eq _ http serviceId l rfl hf hobjs, hsome,
      foundOrUndefined, hnum, hclone]

/-- C8 witness: against a concrete environment the chain issues the versions
GET and then the clone PUT of the active version number 5, settling with the
cloned version object. -/
theorem cloneConfigVersion_spec_witness :
    sampleClient.cloneConfigVersion cloneHttp "svc1" .undefined
      = (.ok (.obj [("number", .num 6)]),
         [versionsRequest sampleClient "svc1",
          cloneRequest sampleClient "svc1" (.num 5)]) := by
  have h := (cloneConfigVersion_spec sampleClient cloneHttp "svc1" cloneHttpVersions
    (.obj [("number", .num 5), ("active", .bool true)]) (.num 5) rfl).2.2.2
    rfl (by decide) rfl rfl
  rw [h.2.2]
  rfl

/-! Claim C1. -/

/-- C1 counterexample: when the getVcl lookup is rejected with status 500, the
call rejects with the synthesized name-conflict error instead of propagating
the original transport error; only the lookup request was issued. -/
theorem uploadNewVcl_non404_counterexample :
    (sampleClient.uploadNewVcl failHttp "svc1" (.num 3) "newvcl" "vcl content" none).1
      = .error (.thrown (nameConflictMessage "newvcl"))
    ∧ JsError.thrown (nameConflictMessage "newvcl") ≠ JsError.http 500 "boom"
    ∧ (sampleClient.uploadNewVcl failHttp "svc1" (.num 3) "newvcl" "vcl content" none).2
        = [vclLookupRequest sampleClient "svc1" (.num 3) "newvcl"] := by
  refine ⟨rfl, by decide, rfl⟩

/-- C1 amended: uploadNewVcl performs the getVcl lookup first; a rejection
with status 404 leads to the upload POST carrying the name and content form;
a resolved lookup rejects with the name-conflict error and issues no POST;
and a rejection with any other status also rejects with the same
name-conflict error, the original error not propagating, with no POST
issued. -/
theorem uploadNewVcl_spec_amended (c : Client) (http : Http)
    (serviceId : String) (n : Json) (vclName vclContent : String)
    (hend : c.endpoint = fastlyEndpoint) :
    (∀ e, http.fetch (vclLookupRequest c serviceId n vclName) = .error e →
      e.statusCode = some 404 →
      c.uploadNewVcl http serviceId n vclName vclContent none
        = (http.fetch (vclUploadRequest c serviceId n vclName vclContent),
           [vclLookupRequest c serviceId n vclName,
            vclUploadRequest c serviceId n vclName vclContent]))
    ∧ (∀ r, http.fetch (vclLookupRequest c serviceId n vclName) = .ok r →
      c.uploadNewVcl http serviceId n vclName vclContent none
        = (.error (.thrown (nameConflictMessage vclName)),
           [vclLookupRequest c serviceId n vclName]))
    ∧ (∀ e, http.fetch (vclLookupRequest c serviceId n vclName) = .error e →
      e.statusCode ≠ some 404 →
      c.uploadNewVcl http serviceId n vclName vclContent none
        = (.error (.thrown (nameConflictMessage vclName)),
           [vclLookupRequest c serviceId n vclName])) := by
  obtain ⟨ak, ep⟩ := c
  have hend2 : ep = fastlyEndpoint := hend
  subst hend2
  have he : ((fastlyEndpoint : String) == "") = false := by decide
  have hlook : Client.getVcl ⟨ak, fastlyEndpoint⟩ http serviceId n vclName
      = (http.fetch (vclLookupRequest ⟨ak, fastlyEndpoint⟩ serviceId n vclName),
         [vclLookupRequest ⟨ak, fastlyEndpoint⟩ serviceId n vclName]) :=
    request_eq_of_ne_empty _ http "GET" _ {} (by decide)
      (append_left_ne_empty _ _ (append_left_ne_empty _ _ (append_left_ne_empty _ _
        (append_left_ne_empty _ _ (append_left_ne_empty _ _
          (append_left_ne_empty _ _ he))))))
  have hupl : Client.request ⟨ak, fastlyEndpoint⟩ http "POST"
      (Client.endpoint ⟨ak, fastlyEndpoint⟩ ++ "/service/" ++ serviceId ++ "/version/"
        ++ jsToString n ++ "/vcl")
      { form := some (uploadForm vclName vclContent) }
      = (http.fetch (vclUploadRequest ⟨ak, fastlyEndpoint⟩ serviceId n vclName vclContent),
         [vclUploadRequest ⟨ak, fastlyEndpoint⟩ serviceId n vclName vclContent]) :=
    request_eq_of_ne_empty _ http "POST" _ _ (by decide)
      (append_left_ne_empty _ _ (append_left_ne_empty _ _ (append_left_ne_empty _ _
        (append_left_ne_empty _ _ (append_left_ne_empty _ _ he)))))
  refine ⟨fun e hfe h404 => ?_, fun r hfr => ?_, fun e hfe hne => ?_⟩
  · have hbeq : (e.statusCode == some 404) = true := by
      rw [h404]; rfl
    cases hca : http.fetch (vclUploadRequest ⟨ak, fastlyEndpoint⟩ serviceId n vclName
        vclContent) <;>
      simp [Client.uploadNewVcl, hlook, hfe, hbeq, hupl, hca, Chained.bind]
  · simp [Client.uploadNewVcl, hlook, hfr, Chained.bind]
  · have hbeq : (e.statusCode == some 404) = false := by
      simpa using hne
    simp [Client.uploadNewVcl, hlook, hfe, hbeq, Chained.bind]

/-- C1 witness: against an environment whose lookup is rejected with 404, the
lookup GET and then the upload POST are issued and the upload response is
returned. -/
theorem uploadNewVcl_spec_amended_witness :
    sampleClient.uploadNewVcl uploadHttp "svc1" (.num 3) "newvcl" "vcl content" none
      = (.ok (.obj [("name", .str "newvcl")]),
         [vclLookupRequest sampleClient "svc1" (.num 3) "newvcl",
          vclUploadRequest sampleClient "svc1" (.num 3) "newvcl" "vcl content"]) := by
  have h := (uploadNewVcl_spec_amended sampleClient uploadHttp "svc1" (.num 3)
    "newvcl" "vcl content" rfl).1 (JsError.http 404 "not found") rfl rfl
  rw [h]
  rfl

/-! Claim C10. -/

/-- C10: for cloneConfigVersion, getMainVcl, setMainVcl and deleteVcl, a falsy
explicit version number such as the number 0 or the empty string is treated
exactly as an omitted one: the default-resolution test is truthiness of the
argument, so the active version is resolved first. -/
theorem falsy_version_defaults_spec (c : Client) (http : Http)
    (serviceId vclName : String) (v : Json) (hfalsy : v.truthy = false) :
    c.cloneConfigVersion http serviceId v
        = c.cloneConfigVersion http serviceId .undefined
    ∧ c.getMainVcl http serviceId v = c.getMainVcl http serviceId .undefined
    ∧ c.setMainVcl http serviceId vclName v
        = c.setMainVcl http serviceId vclName .undefined
    ∧ c.deleteVcl http serviceId vclName v
        = c.deleteVcl http serviceId vclName .undefined := by
  have hp : c.configVersionNumberPromise http serviceId v
      = c.configVersionNumberPromise http serviceId .undefined := by
    have hu : Json.truthy .undefined = false := rfl
    simp [Client.configVersionNumberPromise, hfalsy, hu]
  exact ⟨by simp [Client.cloneConfigVersion, hp], by simp [Client.getMainVcl, hp],
    by simp [Client.setMainVcl, hp], by simp [Client.deleteVcl, hp]⟩

/-- C10 witness: the number 0 and the empty string behave as an omitted
version number for all four operations. -/
theorem falsy_version_defaults_witness :
    (sampleClient.cloneConfigVersion stubHttp "svc1" (.num 0)
        = sampleClient.cloneConfigVersion stubHttp "svc1" .undefined
      ∧ sampleClient.getMainVcl stubHttp "svc1" (.num 0)
          = sampleClient.getMainVcl stubHttp "svc1" .undefined
      ∧ sampleClient.setMainVcl stubHttp "svc1" "main.vcl" (.num 0)
          = sampleClient.setMainVcl stubHttp "svc1" "main.vcl" .undefined
      ∧ sampleClient.deleteVcl stubHttp "svc1" "main.vcl" (.num 0)
          = sampleClient.deleteVcl stubHttp "svc1" "main.vcl" .undefined)
    ∧ (sampleClient.cloneConfigVersion stubHttp "svc1" (.str "")
        = sampleClient.cloneConfigVersion stubHttp "svc1" .undefined
      ∧ sampleClient.getMainVcl stubHttp "svc1" (.str "")
          = sampleClient.getMainVcl stubHttp "svc1" .undefined
      ∧ sampleClient.setMainVcl stubHttp "svc1" "main.vcl" (.str "")
          = sampleClient.setMainVcl stubHttp "svc1" "main.vcl" .undefined
      ∧ sampleClient.deleteVcl stubHttp "svc1" "main.vcl" (.str "")
          = sampleClient.deleteVcl stubHttp "svc1" "main.vcl" .undefined) :=
  ⟨falsy_version_defaults_spec sampleClient stubHttp "svc1" "main.vcl" (.num 0) (by decide),
   falsy_version_defaults_spec sampleClient stubHttp "svc1" "main.vcl" (.str "") (by decide)⟩
